import Mathlib

/-!
Verification development for the hierarchical livestock breed-identification
router (src/app.py and src/app_comprehensive.py).

Probabilities, confidences and image statistics are embedded as exact
rationals (ℚ); the claims under study are about comparisons and control
flow, not floating-point rounding.  Model invocations are embedded as the
probability vector a model returns for the image under consideration, with
`Option` capturing an invocation that raises.
-/

deriving instance DecidableEq for Except

namespace BreedApp

/-! ## argmax and outcome selection

`np.argmax` returns the index of the first occurrence of the maximum of the
vector (lowest index wins on ties).  `argmaxIdx` mirrors that on `List ℚ`.
-/

def argmaxIdx : List ℚ → Nat
  | [] => 0
  | [_] => 0
  | p :: q :: rest =>
      let j := argmaxIdx (q :: rest)
      if p < (q :: rest).getD j 0 then j + 1 else 0

/-- Embeds the label/confidence selection pattern used after every model
invocation (src/app.py lines 250-252, 281-282; src/app_comprehensive.py
lines 769-771, 794-802, 821-823):
`idx = argmax(probs); label = labels[idx] if idx < len(labels) else placeholder(idx);
conf = probs[idx]`. -/
def pickLabel (labels : List String) (placeholder : Nat → String)
    (probs : List ℚ) : String × ℚ :=
  let i := argmaxIdx probs
  (if i < labels.length then labels.getD i "" else placeholder i, probs.getD i 0)

/-! ## Quality gate (src/app_comprehensive.py, assess_image_quality, lines 281-336)

Each rule record keeps the two claim-relevant fields of the Python dict:
the boolean pass flag and the numeric score.  The inputs are the measured
statistics the Python code computes from the pixels (width/height from
`image.size`, Laplacian variance, mean grayscale over 255, std over 255). -/

structure RuleResult where
  pass : Bool
  score : ℚ
deriving DecidableEq

/-- Resolution rule (lines 287-292). -/
def resolution_rule (width height : ℕ) : RuleResult :=
  { pass := decide (512 ≤ width ∧ 512 ≤ height)
    score := (min width height : ℚ) / 512 }

/-- Blur / sharpness rule (lines 295-302): Laplacian variance against 120. -/
def blur_rule (variance : ℚ) : RuleResult :=
  { pass := decide (120 ≤ variance), score := variance / 120 }

/-- Brightness rule (lines 305-309): `brightness` is the mean grayscale
intensity divided by 255. -/
def brightness_rule (brightness : ℚ) : RuleResult :=
  { pass := decide (1/4 ≤ brightness ∧ brightness ≤ 3/4)
    score := if brightness < 1/2
      then min (brightness / (1/4)) ((1 - brightness) / (1/4))
      else 1 }

/-- Dynamic-range rule (lines 313-317): normalized pixel standard deviation. -/
def dynamic_range_rule (value : ℚ) : RuleResult :=
  { pass := decide (3/20 ≤ value), score := value / (3/20) }

/-- File-size rule (lines 321-327), computed only when both sizes are supplied. -/
def file_size_rule (size max_size : ℕ) : RuleResult :=
  { pass := decide (size ≤ max_size)
    score := min 1 ((max_size : ℚ) / (max 1 size : ℕ)) }

structure QualityReport where
  resolution : RuleResult
  blur : RuleResult
  brightness : RuleResult
  dynamic_range : RuleResult
  file_size : Option RuleResult
  overall_score : ℚ
  overall_pass : Bool
deriving DecidableEq

/-- Embeds assess_image_quality (lines 281-336).  The aggregate score is the
mean of the four core rule scores and the aggregate pass the conjunction of
the four core pass flags, exactly as lines 330-334 compute them. -/
def assess_image_quality (width height : ℕ) (variance brightness std : ℚ)
    (file_size_bytes max_file_size_bytes : Option ℕ) : QualityReport :=
  let res := resolution_rule width height
  let bl := blur_rule variance
  let br := brightness_rule brightness
  let dr := dynamic_range_rule std
  { resolution := res, blur := bl, brightness := br, dynamic_range := dr
    file_size := match file_size_bytes, max_file_size_bytes with
      | some s, some m => some (file_size_rule s m)
      | _, _ => none
    overall_score := (res.score + bl.score + br.score + dr.score) / 4
    overall_pass := res.pass && bl.pass && br.pass && dr.pass }

/-- The four rules lines 330-334 aggregate over. -/
def coreRuleList (q : QualityReport) : List RuleResult :=
  [q.resolution, q.blur, q.brightness, q.dynamic_range]

/-- Every rule present in the report, file_size included when computed. -/
def allRuleList (q : QualityReport) : List RuleResult :=
  coreRuleList q ++ (match q.file_size with | some r => [r] | none => [])

/-- Modelled from the spec (§3 QualityReport): overall_score as the mean of
the scores of all rules in the report, file_size included when present.
Stated for comparison against what assess_image_quality computes. -/
def claimedOverallScore (q : QualityReport) : ℚ :=
  ((allRuleList q).map RuleResult.score).sum / (allRuleList q).length

/-- Modelled from the spec (§3 QualityReport): overall_pass as the logical
AND of the pass flags of all rules in the report, file_size included when
present.  Stated for comparison against what assess_image_quality computes. -/
def claimedOverallPass (q : QualityReport) : Bool :=
  (allRuleList q).all RuleResult.pass

/-- Modelled from the spec (§4.1 Brightness): 1.0 inside the safe band above
the midpoint, otherwise the ratio of the distance from the violated bound to
0.25 on whichever side is violated; `none` where the sentence constrains
nothing (the passing band below the midpoint). -/
def claimedBrightnessScore (b : ℚ) : Option ℚ :=
  if 1/2 ≤ b ∧ b ≤ 3/4 then some 1
  else if b < 1/4 then some ((1/4 - b) / (1/4))
  else if 3/4 < b then some ((b - 3/4) / (1/4))
  else none

/-! ## Crop assistant (src/app_comprehensive.py, auto_crop_image, lines 338-370)

An image is represented by its pixel-grid dimensions; the crop is the
rectangle the numpy slice `img_array[y1:y2, x1:x2]` selects.  numpy's
`shape[0]` is the height and `shape[1]` the width.  The float literal 0.8 of
the detector branch is embedded as the exact rational 4/5. -/

structure ImageDims where
  width : Nat
  height : Nat
deriving DecidableEq

structure CropRect where
  x : Nat
  y : Nat
  w : Nat
  h : Nat
deriving DecidableEq

/-- Length of the numpy slice `a[start:stop]` of an axis of length `len`
(for non-negative bounds): `min stop len - min start len`, clamped at 0 by
Nat subtraction. -/
def slice_len (len start stop : Nat) : Nat :=
  min stop len - min start len

def auto_crop_image (img : ImageDims) (use_face_detection : Bool) : CropRect :=
  if use_face_detection then
    -- center-weighted branch (lines 345-358)
    let center_x : Int := img.width / 2
    let center_y : Int := img.height / 2
    let crop_size : ℚ := ((min img.width img.height : ℕ) : ℚ) * (4/5)
    let half : Int := Int.floor (crop_size / 2)
    let x1 : Int := max 0 (center_x - half)
    let y1 : Int := max 0 (center_y - half)
    let x2 : Int := min (img.width : Int) (center_x + half)
    let y2 : Int := min (img.height : Int) (center_y + half)
    { x := x1.toNat, y := y1.toNat, w := (x2 - x1).toNat, h := (y2 - y1).toNat }
  else
    -- default center-square branch (lines 360-366)
    let min_dim := min img.height img.width
    let start_x := (img.width - min_dim) / 2
    let start_y := (img.height - min_dim) / 2
    { x := start_x, y := start_y
      w := slice_len img.width start_x (start_x + min_dim)
      h := slice_len img.height start_y (start_y + min_dim) }

/-! ## Label registry

The filesystem and the JSON parser are abstracted by an environment:
`pathExists` models `Path(...).exists()`, `readJson` the outcome of
`json.loads(Path(...).read_text())`, and `trainSubdirs` the (unsorted)
subdirectory names of a `train` directory when it exists. -/

inductive JsonOutcome where
  | jlist (xs : List String)
  | other
  | parseError
deriving DecidableEq

structure FileEnv where
  pathExists : String → Bool
  readJson : String → JsonOutcome
  trainSubdirs : String → Option (List String)

/-- A config value can be a JSON list, a string (path), or absent/other. -/
inductive ConfigVal where
  | list (xs : List String)
  | str (s : String)
  | absent
deriving DecidableEq

/-- Lexicographic code-point comparison on character lists, the order
Python's `sorted` uses on strings. -/
def charsLe : List Char → List Char → Bool
  | [], _ => true
  | _ :: _, [] => false
  | a :: as, b :: bs =>
      if a.toNat < b.toNat then true
      else if b.toNat < a.toNat then false
      else charsLe as bs

def strLe (a b : String) : Bool :=
  charsLe a.data b.data

/-- Insertion sort on strings, modelling Python's `sorted`. -/
def insertSorted (s : String) : List String → List String
  | [] => [s]
  | t :: ts => if strLe s t then s :: t :: ts else t :: insertSorted s ts

def sortStrings (l : List String) : List String :=
  l.foldr insertSorted []

/-- Embeds app.py's infer_labels_from_dir (lines 110-114): sorted
subdirectory names of `dir_path/train` when that directory exists, else []. -/
def infer_labels_from_dir (env : FileEnv) (dir_path : String) : List String :=
  match env.trainSubdirs (dir_path ++ "/train") with
  | some names => sortStrings names
  | none => []

/-- Embeds app.py's resolve_label_field (lines 116-126). -/
def resolve_label_field (env : FileEnv) (val : ConfigVal)
    (fallback_list : List String) : List String :=
  match val with
  | .list (x :: xs) => x :: xs
  | .str s =>
      if env.pathExists s then
        match env.readJson s with
        | .jlist (x :: xs) => x :: xs
        | _ => fallback_list
      else fallback_list
  | _ => fallback_list

/-- Embeds the species branch of app.py's resolve_all_labels (lines 129-136):
the species set falls back to the built-in list, never to directory
enumeration or to []. -/
def resolve_species_labels (env : FileEnv) (val : ConfigVal) : List String :=
  match val with
  | .list (x :: xs) => x :: xs
  | .str s =>
      if env.pathExists s then
        match env.readJson s with
        | .jlist (x :: xs) => x :: xs
        | _ => ["bovine", "sheep"]
      else ["bovine", "sheep"]
  | _ => ["bovine", "sheep"]

/-- Embeds app.py's resolve_all_labels (lines 128-145). -/
def resolve_all_labels (env : FileEnv)
    (species_labels sheep_labels bovine_labels : ConfigVal) :
    List String × List String × List String :=
  (resolve_species_labels env species_labels,
   resolve_label_field env sheep_labels
     (infer_labels_from_dir env "hierarchical_data/sheep_breeds"),
   resolve_label_field env bovine_labels
     (infer_labels_from_dir env "hierarchical_data/bovine_breeds"))

/-- Outcome of app_comprehensive.py's ensure_labels: the unguarded
`json.loads` can hand back a non-list value or raise. -/
inductive LabelsOutcome where
  | ok (xs : List String)
  | nonList
  | raised
deriving DecidableEq

/-- Steps 3-5 of ensure_labels (lines 251-256): train-directory enumeration,
then the fallback JSON file, then []. -/
def ensure_labels_tail (env : FileEnv) (fallback_json : Option String)
    (fallback_dir : String) : LabelsOutcome :=
  match env.trainSubdirs ("hierarchical_data/" ++ fallback_dir ++ "/train") with
  | some names => .ok (sortStrings names)
  | none =>
      match fallback_json with
      | some fj =>
          if env.pathExists fj then
            match env.readJson fj with
            | .jlist xs => .ok xs
            | .other => .nonList
            | .parseError => .raised
          else .ok []
      | none => .ok []

/-- Embeds app_comprehensive.py's ensure_labels (lines 245-256).  Note the
second step returns whatever the referenced file parses to — it performs no
non-empty-list check. -/
def ensure_labels (env : FileEnv) (val : ConfigVal)
    (fallback_json : Option String) (fallback_dir : String) : LabelsOutcome :=
  match val with
  | .list (x :: xs) => .ok (x :: xs)
  | .str s =>
      if env.pathExists s then
        match env.readJson s with
        | .jlist xs => .ok xs
        | .other => .nonList
        | .parseError => .raised
      else ensure_labels_tail env fallback_json fallback_dir
  | _ => ensure_labels_tail env fallback_json fallback_dir

/-- Modelled from the spec (§4.3 source 1): an explicit in-config ordered
list, succeeding when present and non-empty. -/
def claimed_source1 : ConfigVal → Option (List String)
  | .list (x :: xs) => some (x :: xs)
  | _ => none

/-- Modelled from the spec (§4.3 source 2): a path reference to an external
list file, used only if it parses to a non-empty list. -/
def claimed_source2 (env : FileEnv) : ConfigVal → Option (List String)
  | .str s =>
      if env.pathExists s then
        match env.readJson s with
        | .jlist (x :: xs) => some (x :: xs)
        | _ => none
      else none
  | _ => none

/-- Modelled from the spec (§4.3 source 3): alphabetical enumeration of the
subdirectory names under the head's training-data directory. -/
def claimed_source3 (env : FileEnv) (train_dir : String) : Option (List String) :=
  match env.trainSubdirs train_dir with
  | some names => some (sortStrings names)
  | none => none

/-- Modelled from the spec (§4.3): resolution order per label set, first
success wins, with (4) the empty list as last resort. -/
def claimed_resolution (env : FileEnv) (val : ConfigVal)
    (train_dir : String) : List String :=
  match claimed_source1 val with
  | some xs => xs
  | none =>
      match claimed_source2 env val with
      | some xs => xs
      | none =>
          match claimed_source3 env train_dir with
          | some xs => xs
          | none => []

/-- Concrete environment for examining ensure_labels: the referenced label
file exists and parses to the empty list, while the sheep training directory
exists with two breed subdirectories. -/
def envCex : FileEnv :=
  { pathExists := fun s => s == "labels.json"
    readJson := fun s => if s == "labels.json" then .jlist [] else .parseError
    trainSubdirs := fun d =>
      if d == "hierarchical_data/sheep_breeds/train" then some ["b", "a"] else none }

/-! ## Breed routing (two-stage dispatch)

`pyLower` models Python's `str.lower()` for ASCII letters, the only ones the
species labels use. -/

def lowerChar (c : Char) : Char :=
  if c.isUpper then Char.ofNat (c.toNat + 32) else c

def pyLower (s : String) : String :=
  String.mk (s.data.map lowerChar)

/-- Result of app.py's stage-2 block: either the fatal stop of lines 271-273
(`st.error` + `st.stop()` before any model call) or a routed breed outcome. -/
inductive AppBreedResult where
  | configError (head : String)
  | ran (head : String) (label : String) (conf : ℚ)
deriving DecidableEq

/-- Embeds app.py lines 266-283: route the head from the species label,
stop with an error when the routed label list is empty, otherwise invoke the
routed model and select the top-1.  `predict` maps a head name to the
probability vector its model returns for this image. -/
def app_breed_stage (sheep_labels bovine_labels : List String)
    (sp_label : String) (predict : String → List ℚ) : AppBreedResult :=
  let head := if pyLower sp_label == "sheep" then "sheep" else "bovine"
  let labels := if head == "sheep" then sheep_labels else bovine_labels
  if labels.isEmpty then .configError head
  else
    let out := pickLabel labels (fun i => head ++ "_class_" ++ toString i) (predict head)
    .ran head out.1 out.2

/-- Embeds app_comprehensive.py lines 814-823: the same routing and top-1
selection, with no empty-label check at all. -/
def comp_breed_stage (sheep_labels bovine_labels : List String)
    (sp_label : String) (predict : String → List ℚ) : String × ℚ :=
  let head := if pyLower sp_label == "sheep" then "sheep" else "bovine"
  let labels := if head == "sheep" then sheep_labels else bovine_labels
  pickLabel labels (fun i => head ++ "_class_" ++ toString i) (predict head)

/-- Concrete breed models used to observe that comp_breed_stage invokes the
routed model: they differ only in the vector the sheep head returns. -/
def predA : String → List ℚ := fun _ => [1, 0]

def predB : String → List ℚ := fun _ => [0, 1]

/-! ## The per-image pipeline of app_comprehensive.py's main (lines 754-907)

The session settings and the label lists are inputs.  app_comprehensive.py
itself never assigns the module-level names species_labels / sheep_labels /
bovine_labels it reads (ensure_labels is defined but never called); they are
modelled from the spec (§6 Configuration) as the resolved label sets the
Label Registry supplies, as app.py wires them.

`Models` carries, per head, the probability vector its `predict` returns for
the image at hand, `none` standing for an invocation that raises.
`offlineLoaded = false` models load_mobile_net_model returning None. -/

structure Settings where
  species_threshold : ℚ
  breed_threshold : ℚ
  offline_mode : Bool
  privacy_mode : Bool
  species_labels : List String
  sheep_labels : List String
  bovine_labels : List String
deriving DecidableEq

structure Models where
  offlineLoaded : Bool
  offlineSpecies : Option (List ℚ)
  species : Option (List ℚ)
  sheep : Option (List ℚ)
  bovine : Option (List ℚ)
deriving DecidableEq

/-- Python exceptions that can escape the per-image block. -/
inductive PyError where
  | modelFailure (stage : String)
  | noneModelCall (stage : String)
  | unboundLocal (name : String)
deriving DecidableEq

structure GuardrailPair where
  sheep_top : String × ℚ
  bovine_top : String × ℚ
deriving DecidableEq

/-- One entry of st.session_state.session_history (lines 898-907), restricted
to the decision-relevant fields. -/
structure HistoryEntry where
  species : String
  species_confidence : ℚ
  breed : Option String
  breed_confidence : Option ℚ
deriving DecidableEq

/-- Everything the per-image block commits: the stage outcomes and the
recorded history entry (none under privacy mode). -/
structure StepResult where
  species_outcome : String × ℚ
  guardrail : Option GuardrailPair
  breed_outcome : Option (String × ℚ)
  history : Option HistoryEntry
  quality_report : Option QualityReport
deriving DecidableEq

/-- Python's `max(probs)` over a non-empty sequence. -/
def pyMax (l : List ℚ) : ℚ :=
  l.foldl max (l.headD 0)

/-- Species stage (lines 761-771).  In offline mode with the lite model
loaded, the label comes from `sp_probs[0] > 0.5` and the confidence from
`max(sp_probs)`; otherwise the full species model runs through argmax with
the "unknown" placeholder.  Offline mode with a failed lite-model load falls
into the else-branch and calls `.predict` on None. -/
def species_stage (s : Settings) (m : Models) : Except PyError (String × ℚ) :=
  if s.offline_mode && m.offlineLoaded then
    match m.offlineSpecies with
    | none => .error (.modelFailure "species")
    | some probs =>
        .ok (if (1 : ℚ)/2 < probs.getD 0 0 then "bovine" else "sheep", pyMax probs)
  else if s.offline_mode then
    .error (.noneModelCall "species")
  else
    match m.species with
    | none => .error (.modelFailure "species")
    | some probs => .ok (pickLabel s.species_labels (fun _ => "unknown") probs)

/-- Guardrail (lines 789-808): when the species confidence is below the
threshold and offline mode is off, run both breed heads (sheep first) and
report both top-1 results.  There is no exception handling around either
`predict`. -/
def guardrail_stage (s : Settings) (m : Models) (sp_conf : ℚ) :
    Except PyError (Option GuardrailPair) :=
  if sp_conf < s.species_threshold ∧ s.offline_mode = false then
    match m.sheep with
    | none => .error (.modelFailure "sheep")
    | some sheep_probs =>
        match m.bovine with
        | none => .error (.modelFailure "bovine")
        | some bovine_probs =>
            .ok (some
              { sheep_top := pickLabel s.sheep_labels
                  (fun i => "sheep_class_" ++ toString i) sheep_probs
                bovine_top := pickLabel s.bovine_labels
                  (fun i => "bovine_class_" ++ toString i) bovine_probs })
  else .ok none

/-- Breed stage (lines 810-823): runs exactly when the species confidence
reaches the threshold and offline mode is off. -/
def breed_route_stage (s : Settings) (m : Models) (sp_label : String)
    (sp_conf : ℚ) : Except PyError (Option (String × ℚ)) :=
  if s.species_threshold ≤ sp_conf ∧ s.offline_mode = false then
    let head := if pyLower sp_label == "sheep" then "sheep" else "bovine"
    let labels := if head == "sheep" then s.sheep_labels else s.bovine_labels
    match (if head == "sheep" then m.sheep else m.bovine) with
    | none => .error (.modelFailure head)
    | some probs =>
        .ok (some (pickLabel labels (fun i => head ++ "_class_" ++ toString i) probs))
  else .ok none

/-- History append (lines 896-907).  The breed field is gated only on
`sp_conf >= species_threshold` — not on offline mode — and in offline mode
`br_label` was never assigned, which Python surfaces as an
UnboundLocalError. -/
def history_stage (s : Settings) (sp_label : String) (sp_conf : ℚ)
    (breed : Option (String × ℚ)) : Except PyError (Option HistoryEntry) :=
  if s.privacy_mode then .ok none
  else if s.species_threshold ≤ sp_conf then
    match breed with
    | some (bl, bc) => .ok (some ⟨sp_label, sp_conf, some bl, some bc⟩)
    | none => .error (.unboundLocal "br_label")
  else .ok (some ⟨sp_label, sp_conf, none, none⟩)

/-- The per-image block of main, lines 754-907: species stage, guardrail,
routed breed stage, history append.  The quality report `q` (None when the
quality check is disabled) is only carried along and displayed — no later
stage reads it. -/
def process_image (s : Settings) (m : Models) (q : Option QualityReport) :
    Except PyError StepResult :=
  match species_stage s m with
  | .error e => .error e
  | .ok sp =>
      match guardrail_stage s m sp.2 with
      | .error e => .error e
      | .ok guard =>
          match breed_route_stage s m sp.1 sp.2 with
          | .error e => .error e
          | .ok breed =>
              match history_stage s sp.1 sp.2 breed with
              | .error e => .error e
              | .ok hist => .ok ⟨sp, guard, breed, hist, q⟩

/-- A step result with the carried quality report erased, for stating that
nothing else depends on the report. -/
def eraseQuality (r : StepResult) : StepResult :=
  { r with quality_report := none }

/-- Session settings with offline mode on and privacy mode off, default
thresholds (0.80 species, 0.70 breed). -/
def settingsOffline : Settings :=
  { species_threshold := mkRat 4 5, breed_threshold := mkRat 7 10
    offline_mode := true, privacy_mode := false
    species_labels := ["bovine", "sheep"]
    sheep_labels := ["Deccani", "Nellore"]
    bovine_labels := ["Gir", "Sahiwal", "Murrah"] }

/-- Lite model loaded and confident (0.9 for class 0); the full models were
never loaded in offline mode. -/
def modelsOffline : Models :=
  { offlineLoaded := true, offlineSpecies := some [mkRat 9 10, mkRat 1 10]
    species := none, sheep := none, bovine := none }

/-- Session settings with offline mode off, default thresholds. -/
def settingsGuard : Settings :=
  { species_threshold := mkRat 4 5, breed_threshold := mkRat 7 10
    offline_mode := false, privacy_mode := true
    species_labels := ["bovine", "sheep"]
    sheep_labels := ["Deccani", "Nellore"]
    bovine_labels := ["Gir", "Sahiwal", "Murrah"] }

/-- Species model unsure (0.55 bovine), the sheep guardrail head raises, the
bovine head would answer. -/
def modelsGuard : Models :=
  { offlineLoaded := false, offlineSpecies := none
    species := some [mkRat 11 20, mkRat 9 20], sheep := none
    bovine := some [1, 0, 0] }

/-- Species model unsure (0.55 bovine), the sheep guardrail head answers,
the bovine head raises. -/
def modelsGuardB : Models :=
  { offlineLoaded := false, offlineSpecies := none
    species := some [mkRat 11 20, mkRat 9 20], sheep := some [1, 0]
    bovine := none }

/-! ## Correction ledger and active-learning queue
(src/app_comprehensive.py, save_correction lines 438-450 and its call sites
lines 859-871 / 882-894)

The corrections.csv file is a list of rows (the header row plus correction
records); `writeOk` is the outcome of the file write for one call (`false`
models the open raising, e.g. storage unavailable, which save_correction
catches and reports as False). -/

structure CorrectionRecord where
  timestamp : Nat
  image_hash : String
  predicted : String
  actual : String
  confidence : ℚ
deriving DecidableEq

inductive CsvRow where
  | header
  | record (r : CorrectionRecord)
deriving DecidableEq

structure Ledger where
  fileExists : Bool
  rows : List CsvRow
deriving DecidableEq

/-- Embeds save_correction (lines 438-450): on success, write the header iff
the file did not exist, then append one record row, and return True; on
failure, change nothing and return False. -/
def save_correction (led : Ledger) (r : CorrectionRecord) (writeOk : Bool) :
    Ledger × Bool :=
  if writeOk then
    let rowsWithHeader := if led.fileExists then led.rows else led.rows ++ [CsvRow.header]
    ({ fileExists := true, rows := rowsWithHeader ++ [CsvRow.record r] }, true)
  else (led, false)

structure SessionState where
  ledger : Ledger
  queue : List CorrectionRecord
deriving DecidableEq

/-- Embeds the correction call sites (lines 882-894): call save_correction
and, exactly when it reports success, append the matching entry to
st.session_state.active_learning_queue. -/
def record_correction (st : SessionState) (r : CorrectionRecord)
    (writeOk : Bool) : SessionState × Bool :=
  let res := save_correction st.ledger r writeOk
  if res.2 then ({ ledger := res.1, queue := st.queue ++ [r] }, true)
  else ({ ledger := res.1, queue := st.queue }, false)

/-- N successive successful record calls. -/
def recordAll (st : SessionState) (rs : List CorrectionRecord) : SessionState :=
  rs.foldl (fun acc r => (record_correction acc r true).1) st

/-- The correction records a ledger holds, in file order (header excluded). -/
def ledgerRecords (led : Ledger) : List CorrectionRecord :=
  led.rows.filterMap (fun row =>
    match row with
    | CsvRow.header => none
    | CsvRow.record r => some r)

/-- A concrete synthesized-placeholder function, `class_<i>`. -/
def placeholderW : Nat → String := fun i => "class_" ++ toString i

/-- Environment in which a referenced label file exists and parses to a
one-element list. -/
def envW : FileEnv :=
  { pathExists := fun s => s == "f.json"
    readJson := fun s => if s == "f.json" then .jlist ["x"] else .parseError
    trainSubdirs := fun _ => none }

/-! ## Theorems -/

/-- The argmax of a non-empty vector is a valid index into it. -/
theorem argmaxIdx_lt_length : ∀ (l : List ℚ), l ≠ [] → argmaxIdx l < l.length
  | [], h => absurd rfl h
  | [_], _ => by simp [argmaxIdx]
  | p :: q :: rest, _ => by
      have ih := argmaxIdx_lt_length (q :: rest) (by simp)
      simp only [argmaxIdx]
      split
      · simpa using Nat.succ_lt_succ ih
      · simp

/-- C3: for every classification outcome (species stage, routed breed stage,
guardrail heads — all built by pickLabel), the probability vector is at least
argmax_index + 1 long, and when the argmax index reaches past the label list
the returned label is the synthesized placeholder, never an out-of-range
access. -/
theorem label_alignment (labels : List String) (placeholder : Nat → String)
    (probs : List ℚ) (hne : probs ≠ []) :
    argmaxIdx probs + 1 ≤ probs.length ∧
    (labels.length ≤ argmaxIdx probs →
      (pickLabel labels placeholder probs).1 = placeholder (argmaxIdx probs)) := by
  refine ⟨argmaxIdx_lt_length probs hne, fun hle => ?_⟩
  have hnot : ¬ (argmaxIdx probs < labels.length) := by omega
  simp [pickLabel, hnot]

/-- C3 witness: the single-entry distribution against an empty label list. -/
theorem label_alignment_witness :
    argmaxIdx [mkRat 1 2] + 1 ≤ 1 ∧
    (List.length ([] : List String) ≤ argmaxIdx [mkRat 1 2] →
      (pickLabel [] placeholderW [mkRat 1 2]).1 = placeholderW (argmaxIdx [mkRat 1 2])) :=
  label_alignment [] placeholderW [mkRat 1 2] (by decide)

/-- C10: in the default (non-detector) mode, auto_crop_image selects a
square of side min(width, height), centered (floor) in the input image. -/
theorem auto_crop_default_square (img : ImageDims)
    (hw : 0 < img.width) (hh : 0 < img.height) :
    (auto_crop_image img false).w = min img.width img.height ∧
    (auto_crop_image img false).h = min img.width img.height ∧
    (auto_crop_image img false).x = (img.width - min img.width img.height) / 2 ∧
    (auto_crop_image img false).y = (img.height - min img.width img.height) / 2 := by
  refine ⟨?_, ?_, ?_, ?_⟩ <;>
    · simp only [auto_crop_image, Bool.false_eq_true, if_false, slice_len]
      omega

/-- C10 witness: a 640x480 image crops to a centered 480x480 square. -/
theorem auto_crop_default_square_witness :
    (auto_crop_image ⟨640, 480⟩ false).w = min 640 480 ∧
    (auto_crop_image ⟨640, 480⟩ false).h = min 640 480 ∧
    (auto_crop_image ⟨640, 480⟩ false).x = (640 - min 640 480) / 2 ∧
    (auto_crop_image ⟨640, 480⟩ false).y = (480 - min 640 480) / 2 :=
  auto_crop_default_square ⟨640, 480⟩ (by decide) (by decide)

/-- C7: the quality report never influences the pipeline — with the carried
report erased, the per-image outcome (species, guardrail, breed, history,
success or failure) is identical whatever report (failing, passing, or
absent) the quality gate produced. -/
theorem quality_gate_advisory (s : Settings) (m : Models)
    (q1 q2 : Option QualityReport) :
    Except.map eraseQuality (process_image s m q1) =
      Except.map eraseQuality (process_image s m q2) := by
  unfold process_image
  rcases species_stage s m with e | sp
  · rfl
  · dsimp only
    rcases guardrail_stage s m sp.2 with e | guard
    · rfl
    · dsimp only
      rcases breed_route_stage s m sp.1 sp.2 with e | breed
      · rfl
      · dsimp only
        rcases history_stage s sp.1 sp.2 breed with e | hist
        · rfl
        · simp [Except.map, eraseQuality]

/-- C1 (the code at the failing input): offline mode on, privacy mode off,
species threshold 0.80, lite species output [0.9, 0.1] — the species
confidence 0.9 clears the threshold, the breed stage is rightly skipped, but
the history append then evaluates the never-assigned br_label because its
gate omits the offline check, so the block fails with UnboundLocalError
instead of recording a result without a breed outcome. -/
theorem offline_highconf_history_unbound :
    process_image settingsOffline modelsOffline none =
      .error (.unboundLocal "br_label") := by decide

/-- C4 counterexample: offline mode off, species confidence 0.55 below the
0.80 threshold, the sheep guardrail head raises and the bovine head would
answer [1, 0, 0] — the whole per-image block aborts with the sheep failure;
the bovine branch's top-1 is neither computed into a result nor reported. -/
theorem guardrail_partial_failure_cex :
    process_image settingsGuard modelsGuard none =
      .error (.modelFailure "sheep") := by decide

/-- C4 (amended): a model failure in either guardrail branch propagates —
processing of the image aborts with that branch's failure and no partial
guardrail result is reported.  A sheep-head failure aborts whatever the
bovine head would have answered (the bovine head run at line 793 never
executes); when the sheep head succeeds and the bovine head fails, the
bovine failure aborts and the sheep head's already-computed result is
discarded. -/
theorem guardrail_branch_failure_aborts (s : Settings) (m : Models)
    (q : Option QualityReport) (lbl : String) (conf : ℚ)
    (hsp : species_stage s m = .ok (lbl, conf))
    (hconf : conf < s.species_threshold)
    (hoff : s.offline_mode = false) :
    (m.sheep = none → process_image s m q = .error (.modelFailure "sheep")) ∧
    (∀ sheep_probs, m.sheep = some sheep_probs → m.bovine = none →
      process_image s m q = .error (.modelFailure "bovine")) := by
  constructor
  · intro hsheep
    have hg : guardrail_stage s m conf = .error (.modelFailure "sheep") := by
      unfold guardrail_stage
      rw [if_pos ⟨hconf, hoff⟩, hsheep]
    simp only [process_image, hsp]
    simp only [hg]
  · intro sheep_probs hsheep hbov
    have hg : guardrail_stage s m conf = .error (.modelFailure "bovine") := by
      simp only [guardrail_stage, hsheep, hbov]
      rw [if_pos ⟨hconf, hoff⟩]
    simp only [process_image, hsp]
    simp only [hg]

/-- C4 witness: the amended theorem applied at the two concrete
unsure-species sessions, one per failing guardrail branch. -/
theorem guardrail_branch_failure_aborts_witness :
    process_image settingsGuard modelsGuard none =
      .error (.modelFailure "sheep") ∧
    process_image settingsGuard modelsGuardB none =
      .error (.modelFailure "bovine") :=
  ⟨(guardrail_branch_failure_aborts settingsGuard modelsGuard none "bovine"
      (mkRat 11 20) (by decide) (by decide) rfl).1 rfl,
   (guardrail_branch_failure_aborts settingsGuard modelsGuardB none "bovine"
      (mkRat 11 20) (by decide) (by decide) rfl).2 [1, 0] rfl rfl⟩

/-- C2 counterexample: in app_comprehensive.py, with the sheep label list
empty and species routed to sheep, no configuration error is surfaced — the
sheep breed model is invoked (two sessions differing only in that model's
output commit different outcomes) and a synthesized placeholder outcome is
committed. -/
theorem comp_breed_no_empty_check_cex :
    comp_breed_stage [] ["Gir"] "sheep" predA ≠
      comp_breed_stage [] ["Gir"] "sheep" predB ∧
    (comp_breed_stage [] ["Gir"] "sheep" predA).1 = "sheep_class_0" := by decide

/-- C2 (amended): in app.py, when the label list of the routed head is
empty, the stage stops with the fatal configuration error for that head
before any breed model is invoked — the outcome is independent of every
breed model. -/
theorem empty_labels_fatal_in_app (sl bl : List String) (sp : String)
    (p1 p2 : String → List ℚ)
    (h : (if pyLower sp == "sheep" then sl else bl) = []) :
    app_breed_stage sl bl sp p1 =
      .configError (if pyLower sp == "sheep" then "sheep" else "bovine") ∧
    app_breed_stage sl bl sp p1 = app_breed_stage sl bl sp p2 := by
  unfold app_breed_stage
  cases hb : (pyLower sp == "sheep") <;> simp [hb] at h ⊢ <;> simp [h]

/-- C2 witness: the amended theorem at an empty sheep list with species
routed to sheep. -/
theorem empty_labels_fatal_in_app_witness :
    app_breed_stage [] ["Gir"] "sheep" predA = .configError "sheep" ∧
    app_breed_stage [] ["Gir"] "sheep" predA =
      app_breed_stage [] ["Gir"] "sheep" predB :=
  empty_labels_fatal_in_app [] ["Gir"] "sheep" predA predB (by decide)

/-- C5 counterexample: at mean intensity 0.9 the brightness rule fails (0.9
is above the 0.75 bound) yet the code's score is 1.0, while the claimed
score — the ratio of the distance from the violated bound to 0.25 — is
(0.9 - 0.75)/0.25 = 0.6 ≠ 1. -/
theorem brightness_score_cex :
    (brightness_rule (9/10)).pass = false ∧
    (brightness_rule (9/10)).score = 1 ∧
    claimedBrightnessScore (9/10) = some (3/5) ∧
    ((3 : ℚ)/5) ≠ 1 := by
  norm_num [brightness_rule, claimedBrightnessScore]

/-- C5 (amended): the brightness rule passes iff the mean intensity lies in
[0.25, 0.75]; its score is 1.0 for every intensity at or above the midpoint
(including failing over-bright images above 0.75) and intensity/0.25 below
the midpoint (exceeding 1 on passing intensities in [0.25, 0.5)). -/
theorem brightness_rule_amended (b : ℚ) :
    ((brightness_rule b).pass = true ↔ (1/4 ≤ b ∧ b ≤ 3/4)) ∧
    (brightness_rule b).score = (if b < 1/2 then b / (1/4) else 1) := by
  constructor
  · simp [brightness_rule]
  · simp only [brightness_rule]
    rcases lt_or_le b (1/2) with h | h
    · rw [if_pos h, if_pos h]
      refine min_eq_left ?_
      calc b / (1/4) = 4 * b := by ring
        _ ≤ 4 * (1 - b) := by linarith
        _ = (1 - b) / (1/4) := by ring
    · rw [if_neg (not_lt.mpr h), if_neg (not_lt.mpr h)]

/-- C6 counterexample: width=height=1024, variance=240, brightness=0.5,
std=0.3, file size 100 bytes against a 50-byte limit.  The file_size rule is
present and fails (score 1/2), yet the report's overall_pass is true and its
overall_score is the four-rule mean 7/4, not the all-rule aggregate
(false, 3/2) the claim prescribes. -/
theorem overall_aggregates_cex :
    (assess_image_quality 1024 1024 240 (1/2) (3/10) (some 100) (some 50)).overall_pass
      = true ∧
    claimedOverallPass
      (assess_image_quality 1024 1024 240 (1/2) (3/10) (some 100) (some 50)) = false ∧
    (assess_image_quality 1024 1024 240 (1/2) (3/10) (some 100) (some 50)).overall_score
      = 7/4 ∧
    claimedOverallScore
      (assess_image_quality 1024 1024 240 (1/2) (3/10) (some 100) (some 50)) = 3/2 := by
  norm_num [assess_image_quality, claimedOverallPass, claimedOverallScore, allRuleList,
    coreRuleList, resolution_rule, blur_rule, brightness_rule, dynamic_range_rule,
    file_size_rule]

/-- C6 (amended): overall_score is the mean of the scores of the four core
rules (resolution, blur, brightness, dynamic_range) and overall_pass the
conjunction of their pass flags; the file_size rule, when present, is
excluded from both aggregates, so the claimed all-rule aggregates coincide
with the computed ones exactly when no file_size rule is in the report. -/
theorem overall_aggregates_amended (w h : ℕ) (v b d : ℚ) (fs mfs : Option ℕ) :
    (assess_image_quality w h v b d fs mfs).overall_score =
      ((coreRuleList (assess_image_quality w h v b d fs mfs)).map RuleResult.score).sum / 4 ∧
    (assess_image_quality w h v b d fs mfs).overall_pass =
      (coreRuleList (assess_image_quality w h v b d fs mfs)).all RuleResult.pass ∧
    ((assess_image_quality w h v b d fs mfs).file_size = none →
      (assess_image_quality w h v b d fs mfs).overall_score =
        claimedOverallScore (assess_image_quality w h v b d fs mfs) ∧
      (assess_image_quality w h v b d fs mfs).overall_pass =
        claimedOverallPass (assess_image_quality w h v b d fs mfs)) := by
  cases fs <;> cases mfs <;>
    simp [assess_image_quality, coreRuleList, allRuleList, claimedOverallScore,
      claimedOverallPass, Bool.and_assoc] <;>
    ring

/-- C6 witness: the amended theorem at a report without a file_size rule,
where the claimed aggregates do hold. -/
theorem overall_aggregates_amended_witness :
    (assess_image_quality 1024 1024 240 (1/2) (3/10) none none).overall_score =
      claimedOverallScore (assess_image_quality 1024 1024 240 (1/2) (3/10) none none) ∧
    (assess_image_quality 1024 1024 240 (1/2) (3/10) none none).overall_pass =
      claimedOverallPass (assess_image_quality 1024 1024 240 (1/2) (3/10) none none) :=
  (overall_aggregates_amended 1024 1024 240 (1/2) (3/10) none none).2.2 rfl

/-- One successful record call appends exactly one ledger record and one
queue entry. -/
theorem record_correction_true_spec (st : SessionState) (r : CorrectionRecord) :
    ledgerRecords (record_correction st r true).1.ledger =
      ledgerRecords st.ledger ++ [r] ∧
    (record_correction st r true).1.queue = st.queue ++ [r] := by
  unfold record_correction save_correction ledgerRecords
  cases hfe : st.ledger.fileExists <;> simp [hfe, List.filterMap_append]

/-- N successful record calls append exactly those records, in call order,
to both the ledger and the active-learning queue. -/
theorem recordAll_spec (rs : List CorrectionRecord) :
    ∀ st : SessionState,
      ledgerRecords (recordAll st rs).ledger = ledgerRecords st.ledger ++ rs ∧
      (recordAll st rs).queue = st.queue ++ rs := by
  induction rs with
  | nil => intro st; simp [recordAll]
  | cons rr rest ih =>
      intro st
      have hstep := record_correction_true_spec st rr
      have hrest := ih (record_correction st rr true).1
      have hfold : recordAll st (rr :: rest) =
          recordAll (record_correction st rr true).1 rest := by
        simp [recordAll]
      rw [hfold]
      refine ⟨?_, ?_⟩
      · rw [hrest.1, hstep.1]; simp
      · rw [hrest.2, hstep.2]; simp

/-- C8: the record operation is total (it returns true or false, never
raising past its boundary); after N successful calls the ledger holds
exactly those N correction records in call order; a failed call returns
false, adds nothing and leaves the session state untouched; and each
successful call appends exactly one matching entry to the in-memory
active-learning queue. -/
theorem correction_ledger_and_queue (st : SessionState)
    (rs : List CorrectionRecord) (r : CorrectionRecord) :
    ledgerRecords (recordAll st rs).ledger = ledgerRecords st.ledger ++ rs ∧
    (recordAll st rs).queue = st.queue ++ rs ∧
    (record_correction st r false).1 = st ∧
    (record_correction st r false).2 = false ∧
    (record_correction st r true).1.queue = st.queue ++ [r] ∧
    (record_correction st r true).2 = true := by
  refine ⟨(recordAll_spec rs st).1, (recordAll_spec rs st).2, rfl, rfl,
    (record_correction_true_spec st r).2, ?_⟩
  cases hfe : st.ledger.fileExists <;> simp [record_correction, save_correction, hfe]

/-- C9 counterexample: the config references a label file that exists and
parses to the empty list, while the head's training directory exists with
subdirectories b and a.  The claimed resolution order skips the empty parse
and returns the alphabetical enumeration [a, b]; ensure_labels returns the
empty parse directly. -/
theorem label_resolution_order_cex :
    ensure_labels envCex (.str "labels.json") none "sheep_breeds" = .ok [] ∧
    claimed_resolution envCex (.str "labels.json")
      "hierarchical_data/sheep_breeds/train" = ["a", "b"] ∧
    LabelsOutcome.ok [] ≠ LabelsOutcome.ok ["a", "b"] := by decide

/-- C9 (amended): app.py's breed-head resolution follows the claimed fixed
order exactly — explicit non-empty list, then external file only if it
parses to a non-empty list, then sorted training subdirectories, then [] —
while app_comprehensive.py's ensure_labels returns the external file's parse
unconditionally once the path exists, and app.py's species set falls back to
the built-in default instead of sources (3)-(4). -/
theorem label_resolution_amended :
    (∀ (env : FileEnv) (val : ConfigVal) (dir_path : String),
        resolve_label_field env val (infer_labels_from_dir env dir_path) =
          claimed_resolution env val (dir_path ++ "/train")) ∧
    (∀ (env : FileEnv) (s : String) (fbj : Option String) (fbd : String)
        (xs : List String),
        env.pathExists s = true → env.readJson s = .jlist xs →
        ensure_labels env (.str s) fbj fbd = .ok xs) ∧
    (∀ (env : FileEnv) (s : String),
        env.pathExists s = false →
        resolve_species_labels env (.str s) = ["bovine", "sheep"]) := by
  refine ⟨?_, ?_, ?_⟩
  · intro env val dir_path
    have htail : infer_labels_from_dir env dir_path =
        (match claimed_source3 env (dir_path ++ "/train") with
         | some xs => xs
         | none => []) := by
      unfold infer_labels_from_dir claimed_source3
      cases env.trainSubdirs (dir_path ++ "/train") <;> rfl
    cases val with
    | list xs =>
        cases xs with
        | nil =>
            simp only [resolve_label_field, claimed_resolution, claimed_source1,
              claimed_source2]
            exact htail
        | cons x xs => rfl
    | str s =>
        by_cases hp : env.pathExists s
        · cases hj : env.readJson s with
          | jlist ys =>
              cases ys with
              | nil =>
                  simp only [resolve_label_field, claimed_resolution, claimed_source1,
                    claimed_source2, hp, hj, if_true]
                  simpa using htail
              | cons y ys =>
                  simp [resolve_label_field, claimed_resolution, claimed_source1,
                    claimed_source2, hp, hj]
          | other =>
              simp only [resolve_label_field, claimed_resolution, claimed_source1,
                claimed_source2, hp, hj, if_true]
              simpa using htail
          | parseError =>
              simp only [resolve_label_field, claimed_resolution, claimed_source1,
                claimed_source2, hp, hj, if_true]
              simpa using htail
        · simp only [resolve_label_field, claimed_resolution, claimed_source1,
            claimed_source2, hp, if_false]
          simpa using htail
    | absent =>
        simp only [resolve_label_field, claimed_resolution, claimed_source1,
          claimed_source2]
        exact htail
  · intro env s fbj fbd xs hp hj
    simp [ensure_labels, hp, hj]
  · intro env s hp
    simp [resolve_species_labels, hp]

/-- C9 witness: the second amended conjunct at a file that exists and parses
to a one-element list. -/
theorem label_resolution_amended_witness :
    ensure_labels envW (.str "f.json") none "d" = .ok ["x"] :=
  label_resolution_amended.2.1 envW "f.json" none "d" ["x"] (by decide) (by decide)

end BreedApp
